import Mathlib

/-!
Verification of the hospital strain forecasting and alerting pipeline
(`build_alert_layer.py`, `build_forecast_layer.py`, `build_features_layer.py`,
`build_stress_features.py`, `build_overload_predictions.py`).

Numeric columns are modelled over `ℚ`.  The numerical standard deviations
(`np.std` over the 4-lag window, pandas `rolling(4).std()`) involve a square
root and are therefore kept abstract: they appear as a function parameter
`pstd` taking the four window values.  Every property proved here holds for
an arbitrary such function, which is exactly the strength the claims need
(none of them constrains the numeric value of a standard deviation, only
which window it is computed over).
-/

/- ===================== Alert layer (`build_alert_layer.py`) ============ -/

/-- Alert severity levels used by the alert layer. -/
inductive AlertLevel
  | Normal
  | Watch
  | Critical
  deriving DecidableEq, Repr, Fintype

open AlertLevel

/-- The `severity_rank` dictionary of `build_alert_layer.py`
(`Normal ↦ 0, Watch ↦ 1, Critical ↦ 2`). -/
def severityRank : AlertLevel → ℕ
  | .Normal => 0
  | .Watch => 1
  | .Critical => 2

/-- `final_alert = max(icu_alert, oxygen_alert, key=severity_rank)` from
`build_alert_layer.py`.  Python's two-argument `max` returns the second
argument only when its key is strictly greater, else the first. -/
def finalAlert (icu_alert oxygen_alert : AlertLevel) : AlertLevel :=
  if severityRank icu_alert < severityRank oxygen_alert then oxygen_alert
  else icu_alert

/-- `INITIAL_OXYGEN = 40` of `build_alert_layer.py`. -/
def INITIAL_OXYGEN : ℚ := 40

/-- `BURN_SCALE = 15` of `build_alert_layer.py`. -/
def BURN_SCALE : ℚ := 15

/-- The oxygen burn-down loop of `build_alert_layer.py`:
`while oxygen > 0 and weeks < 52: oxygen -= burn_rate; weeks += 1`,
returning the final `weeks`. -/
def oxygenLoop (burn_rate : ℚ) (oxygen : ℚ) (weeks : ℕ) : ℕ :=
  if h : 0 < oxygen ∧ weeks < 52 then
    oxygenLoop burn_rate (oxygen - burn_rate) (weeks + 1)
  else
    weeks
termination_by 52 - weeks
decreasing_by
  obtain ⟨-, h2⟩ := h
  omega

/-- The oxygen depletion simulation of `build_alert_layer.py` as a function
of the occupancy value: `burn_rate = occupancy * BURN_SCALE`; if
`burn_rate <= 0` then `weeks = 52`, else run the burn-down loop starting
from `INITIAL_OXYGEN` with `weeks = 0`. -/
def oxygenSim (occupancy : ℚ) : ℕ :=
  if occupancy * BURN_SCALE ≤ 0 then 52
  else oxygenLoop (occupancy * BURN_SCALE) INITIAL_OXYGEN 0

/-- `days_remaining = weeks * 7` from `build_alert_layer.py`. -/
def oxygenDaysRemaining (occupancy : ℚ) : ℕ :=
  oxygenSim occupancy * 7

/- ============ Stress scorer (`build_stress_features.py`) =============== -/

/-- `clamp01(x) = np.clip(x, 0.0, 1.0)` from `build_stress_features.py`. -/
def clamp01 (x : ℚ) : ℚ := max 0 (min x 1)

/-- pandas `Series.clip(lo, hi)` on a scalar. -/
def clipTo (lo hi x : ℚ) : ℚ := max lo (min x hi)

/-- The per-row stress score of `build_stress_features.py`.
`icu`, `inp`, `covid` are the raw `icu_occupancy_rate`,
`inpatient_occupancy_rate`, `covid_icu_burden_rate` of the row;
`icu_util_lag1` is the previous row's clamped `icu_util` (`none` on the
first row of a hospital, where the pandas shift yields NaN and
`icu_delta_1w.fillna(0)` applies).  Mirrors lines 46–74 of the source:
the three ratio inputs are clamped to [0,1], `icu_delta_1w` is the clipped
one-week utilization change, `oxygen_risk_proxy` is the clamped weighted
blend, and `stress = 0.5*icu_util*100 + 0.3*oxygen_risk_proxy*100 +
0.2*clamp01(icu_delta_1w.fillna(0)/0.10)*100`. -/
def stress_score (icu inp covid : ℚ) (icu_util_lag1 : Option ℚ) : ℚ :=
  let icu_util := clamp01 icu
  let inpatient_util := clamp01 inp
  let covid_ratio := clamp01 covid
  let icu_delta_1w : Option ℚ :=
    icu_util_lag1.map (fun l => clipTo (-0.3) 0.3 (icu_util - l))
  let oxygen_risk_proxy :=
    clamp01 (0.6 * icu_util + 0.2 * inpatient_util + 0.2 * covid_ratio)
  0.5 * icu_util * 100 + 0.3 * oxygen_risk_proxy * 100
    + 0.2 * clamp01 ((icu_delta_1w.getD 0) / 0.10) * 100

/- ======== Feature builder (`build_features_layer.py`) ================== -/

/-- `lag_k` at position `i` of a single hospital's date-sorted observation
series (`groupby("hospital_pk")["icu_occupancy_rate"].shift(k)`):
`obs[i-k]` when `k ≤ i`, else the NaN that `shift` produces. -/
def lagAt (obs : List ℚ) (i k : ℕ) : Option ℚ :=
  if k ≤ i then obs[i - k]? else none

/-- `shift(1).rolling(4).f` at position `i` of a single hospital's series:
the window holds the shifted values at positions `i-3 … i`, i.e. the
observations `obs[i-4] … obs[i-1]`; NaN (here `none`) whenever `i < 4`
(the window then contains the NaN produced by `shift`). -/
def shiftRoll4 (f : ℚ → ℚ → ℚ → ℚ → ℚ) (obs : List ℚ) (i : ℕ) : Option ℚ :=
  if 4 ≤ i then
    match obs[i - 4]?, obs[i - 3]?, obs[i - 2]?, obs[i - 1]? with
    | some a, some b, some c, some d => some (f a b c d)
    | _, _, _, _ => none
  else none

/-- One row of the feature table built by `build_features` of
`build_features_layer.py` (one hospital; `idx` is the position of the row
in that hospital's date-sorted series). -/
structure RawFeatureRow where
  idx : ℕ
  icu_occupancy_rate : ℚ
  lag_1 : Option ℚ
  lag_2 : Option ℚ
  lag_3 : Option ℚ
  lag_4 : Option ℚ
  roll_mean_4 : Option ℚ
  roll_std_4 : Option ℚ
  roll_min_4 : Option ℚ
  roll_max_4 : Option ℚ
  delta_1 : Option ℚ
  pct_change_1 : Option ℚ
  deriving DecidableEq, Repr

/-- The feature columns of `build_features` at position `i` with current
value `v`.  `pstd` abstracts the numeric `rolling(4).std()`.
`pct_change_1 = (value - lag_1) / lag_1`; a zero `lag_1` produces
±inf (or NaN), which line 40 of the source replaces by NA, hence `none`. -/
def rawFeatureRow (pstd : ℚ → ℚ → ℚ → ℚ → ℚ) (obs : List ℚ) (i : ℕ)
    (v : ℚ) : RawFeatureRow :=
  { idx := i
    icu_occupancy_rate := v
    lag_1 := lagAt obs i 1
    lag_2 := lagAt obs i 2
    lag_3 := lagAt obs i 3
    lag_4 := lagAt obs i 4
    roll_mean_4 := shiftRoll4 (fun a b c d => (a + b + c + d) / 4) obs i
    roll_std_4 := shiftRoll4 pstd obs i
    roll_min_4 := shiftRoll4 (fun a b c d => min a (min b (min c d))) obs i
    roll_max_4 := shiftRoll4 (fun a b c d => max a (max b (max c d))) obs i
    delta_1 := (lagAt obs i 1).map (fun l => v - l)
    pct_change_1 :=
      (lagAt obs i 1).bind
        (fun l => if l = 0 then none else some ((v - l) / l)) }

/-- `build_features` of `build_features_layer.py` restricted to one
hospital's date-sorted series: compute every row's lag/rolling/delta
columns, then `dropna(subset=["lag_1", "roll_mean_4"])`. -/
def build_features (pstd : ℚ → ℚ → ℚ → ℚ → ℚ) (obs : List ℚ) :
    List RawFeatureRow :=
  ((List.range obs.length).map
      (fun i => rawFeatureRow pstd obs i (obs[i]?.getD 0))).filter
    (fun r => r.lag_1.isSome && r.roll_mean_4.isSome)

/-- One full run of the feature builder: `build_features` plus the
`created_at = datetime.utcnow()` column (line 45 of the source) that is
attached to every emitted row and upserted with it.  The wall-clock read
is modelled as the parameter `created_at`. -/
def build_features_run (pstd : ℚ → ℚ → ℚ → ℚ → ℚ) (obs : List ℚ)
    (created_at : ℕ) : List (RawFeatureRow × ℕ) :=
  (build_features pstd obs).map (fun r => (r, created_at))

/- ====== Recursive forecaster (`build_forecast_layer.py`) =============== -/

/-- The mutable feature state `latest_row` of `recursive_forecast`
(`build_forecast_layer.py`), restricted to the columns the loop reads or
writes (`FEATURE_COLS`). -/
structure ForecastState where
  lag_1 : ℚ
  lag_2 : ℚ
  lag_3 : ℚ
  lag_4 : ℚ
  roll_mean_4 : ℚ
  roll_std_4 : ℚ
  roll_min_4 : ℚ
  roll_max_4 : ℚ
  delta_1 : ℚ
  pct_change_1 : ℚ
  inpatient_occupancy_rate : ℚ
  covid_icu_burden_rate : ℚ
  deriving DecidableEq, Repr

/-- The clamp applied to each prediction in `recursive_forecast`:
`pred = max(0.0, min(pred, 1.2))`. -/
def clampPred (x : ℚ) : ℚ := max 0 (min x 1.2)

/-- One step's emitted prediction in `recursive_forecast`: the model value
on the current state, scaled by `SCENARIO_MULTIPLIER` (`mult`), then
clamped to [0, 1.2].  The model is abstract: any function of the feature
state. -/
def stepPred (model : ForecastState → ℚ) (mult : ℚ)
    (s : ForecastState) : ℚ :=
  clampPred (model s * mult)

/-- The state update at the end of each loop iteration of
`recursive_forecast` (lines 159–183): shift the lag chain
(`lag_4←lag_3, lag_3←lag_2, lag_2←lag_1, lag_1←pred`), recompute
`roll_mean/std/min/max` over the new 4-lag window (`np.mean`, `np.std`,
`np.min`, `np.max` of `[lag_1, lag_2, lag_3, lag_4]`; the numeric `np.std`
is the abstract `pstd`), recompute `delta_1 = lag_1 - lag_2` and
`pct_change_1 = (lag_1 - lag_2)/lag_2` with `0.0` when `lag_2 = 0`.
The other feature columns are untouched. -/
def stepState (pstd : ℚ → ℚ → ℚ → ℚ → ℚ) (s : ForecastState)
    (pred : ℚ) : ForecastState :=
  let lag_1 := pred
  let lag_2 := s.lag_1
  let lag_3 := s.lag_2
  let lag_4 := s.lag_3
  { lag_1 := lag_1
    lag_2 := lag_2
    lag_3 := lag_3
    lag_4 := lag_4
    roll_mean_4 := (lag_1 + lag_2 + lag_3 + lag_4) / 4
    roll_std_4 := pstd lag_1 lag_2 lag_3 lag_4
    roll_min_4 := min lag_1 (min lag_2 (min lag_3 lag_4))
    roll_max_4 := max lag_1 (max lag_2 (max lag_3 lag_4))
    delta_1 := lag_1 - lag_2
    pct_change_1 := if lag_2 ≠ 0 then (lag_1 - lag_2) / lag_2 else 0
    inpatient_occupancy_rate := s.inpatient_occupancy_rate
    covid_icu_burden_rate := s.covid_icu_burden_rate }

/-- The feature state held by `recursive_forecast` after `k` completed
loop iterations (`stateAfter 0` is the hospital's latest feature row). -/
def stateAfter (pstd : ℚ → ℚ → ℚ → ℚ → ℚ) (model : ForecastState → ℚ)
    (mult : ℚ) (s0 : ForecastState) : ℕ → ForecastState
  | 0 => s0
  | k + 1 =>
    stepState pstd (stateAfter pstd model mult s0 k)
      (stepPred model mult (stateAfter pstd model mult s0 k))

/-- The prediction emitted at (1-based) step `k` of `recursive_forecast`:
the clamped, scaled model value on the state left by the first `k - 1`
iterations. -/
def predAtStep (pstd : ℚ → ℚ → ℚ → ℚ → ℚ) (model : ForecastState → ℚ)
    (mult : ℚ) (s0 : ForecastState) (k : ℕ) : ℚ :=
  stepPred model mult (stateAfter pstd model mult s0 (k - 1))

/-- `recursive_forecast(model, hospital_df, steps)` of
`build_forecast_layer.py`: the list of emitted predictions for steps
`1 … steps`. -/
def recursiveForecast (pstd : ℚ → ℚ → ℚ → ℚ → ℚ)
    (model : ForecastState → ℚ) (mult : ℚ) (s0 : ForecastState)
    (steps : ℕ) : List ℚ :=
  (List.range steps).map
    (fun i => stepPred model mult (stateAfter pstd model mult s0 i))

/- ==== Holdout guards (`build_overload_predictions.py`,
      `build_forecast_layer.py`) ===================================== -/

/-- The guard at the top of `train_and_eval_hospital_holdout`
(`build_overload_predictions.py`, lines 74–76): raise when the number of
distinct hospitals is below 5.  `some msg` models a raised `ValueError`,
`none` models normal continuation. -/
def overloadHoldoutGuard (nHospitals : ℕ) : Option String :=
  if nHospitals < 5 then some "Not enough hospitals for holdout split."
  else none

/-- Modelled from sklearn: `train_test_split(xs, test_size=0.2)` takes
`⌈0.2·n⌉` test samples and the remaining `n - ⌈0.2·n⌉` train samples, and
raises exactly when one of the two resulting sets would be empty.  This is
the only failure path of `train_and_evaluate_group_holdout`
(`build_forecast_layer.py`, lines 59–68), which performs no explicit
hospital-count check of its own. -/
def trainTestSplitGuard (nSamples : ℕ) : Option String :=
  let nTest := (nSamples + 4) / 5
  let nTrain := nSamples - nTest
  if nTest = 0 ∨ nTrain = 0 then
    some "train_test_split: resulting train set will be empty"
  else none

/-- The complete failure behaviour of the occupancy regressor's holdout
split (`train_and_evaluate_group_holdout`): it delegates directly to
`train_test_split` with no minimum-hospital guard. -/
def forecastHoldoutGuard (nHospitals : ℕ) : Option String :=
  trainTestSplitGuard nHospitals

/- ==== Overload inference (`build_overload_predictions.py`) ============ -/

/-- `PROB_THRESHOLD = 0.35` of `build_overload_predictions.py`. -/
def PROB_THRESHOLD : ℚ := 0.35

/-- The per-hospital inference step of `main` in
`build_overload_predictions.py` (lines 167–174): take the latest row's
`FEATURE_COLS` values (`none` = missing/NaN), coerce and
`fillna(0.0)`, run the model, and emit `(probability, flag)` with
`flag = (prob >= PROB_THRESHOLD)`.  Note that the row is always emitted:
missing features are zero-filled, not skipped. -/
def overloadInfer (model : List ℚ → ℚ) (feat : List (Option ℚ)) :
    ℚ × Bool :=
  let x := feat.map (fun v => v.getD 0)
  let prob := model x
  (prob, decide (PROB_THRESHOLD ≤ prob))

/-- The per-hospital loop of `main` in `build_overload_predictions.py`:
one `(probability, flag)` result row appended per hospital, one hospital
per entry of `latestRows`. -/
def overloadPredictionRows (model : List ℚ → ℚ)
    (latestRows : List (List (Option ℚ))) : List (ℚ × Bool) :=
  latestRows.map (overloadInfer model)

/- ===================== Concrete instances for witnesses ================ -/

/-- A concrete stand-in for the abstract numeric standard deviation. -/
def pstdZero : ℚ → ℚ → ℚ → ℚ → ℚ := fun _ _ _ _ => 0

/-- A concrete five-observation hospital series. -/
def obsFive : List ℚ := [0, 0, 0, 0, 0]

/-- A concrete all-zero forecast feature state. -/
def s0Zero : ForecastState :=
  { lag_1 := 0, lag_2 := 0, lag_3 := 0, lag_4 := 0
    roll_mean_4 := 0, roll_std_4 := 0, roll_min_4 := 0, roll_max_4 := 0
    delta_1 := 0, pct_change_1 := 0
    inpatient_occupancy_rate := 0, covid_icu_burden_rate := 0 }

/-- A concrete regression model that always predicts 2 (diverging above
the clamp ceiling 1.2). -/
def modelTwo : ForecastState → ℚ := fun _ => 2

/- ===================== Helper lemmas =================================== -/

theorem ceil_pred_step {q : ℚ} (hq : 0 < q) : ⌈q⌉₊ = ⌈q - 1⌉₊ + 1 := by
  rcases le_or_lt 1 q with h1 | h1
  · have h0 : (0 : ℚ) ≤ q - 1 := by linarith
    have hc := Nat.ceil_add_one h0
    have he : q - 1 + 1 = q := by ring
    rw [he] at hc
    omega
  · have hc1 : ⌈q⌉₊ = 1 := by
      have hle : ⌈q⌉₊ ≤ 1 := Nat.ceil_le.mpr (by push_cast; linarith)
      have hpos : 0 < ⌈q⌉₊ := Nat.ceil_pos.mpr hq
      omega
    have hc0 : ⌈q - 1⌉₊ = 0 := Nat.ceil_eq_zero.mpr (by linarith)
    omega

theorem oxygenLoop_closed (b : ℚ) (hb : 0 < b) :
    ∀ (n : ℕ) (oxygen : ℚ) (weeks : ℕ), weeks + n = 52 →
      oxygenLoop b oxygen weeks = min 52 (weeks + ⌈oxygen / b⌉₊) := by
  intro n
  induction n with
  | zero =>
    intro oxygen weeks hw
    have h52 : weeks = 52 := by omega
    subst h52
    rw [oxygenLoop, dif_neg (by omega)]
    omega
  | succ n ih =>
    intro oxygen weeks hw
    rw [oxygenLoop]
    by_cases hox : 0 < oxygen
    · rw [dif_pos ⟨hox, by omega⟩]
      rw [ih (oxygen - b) (weeks + 1) (by omega)]
      have hq : (oxygen - b) / b = oxygen / b - 1 := by field_simp
      rw [hq]
      have hstep : ⌈oxygen / b⌉₊ = ⌈oxygen / b - 1⌉₊ + 1 :=
        ceil_pred_step (div_pos hox hb)
      omega
    · rw [dif_neg (fun h => hox h.1)]
      have hle : oxygen ≤ 0 := le_of_not_lt hox
      have h0 : ⌈oxygen / b⌉₊ = 0 :=
        Nat.ceil_eq_zero.mpr (div_nonpos_of_nonpos_of_nonneg hle hb.le)
      omega

theorem oxygenSim_closed (occ : ℚ) (h : 0 < occ * BURN_SCALE) :
    oxygenSim occ = min 52 ⌈INITIAL_OXYGEN / (occ * BURN_SCALE)⌉₊ := by
  unfold oxygenSim
  rw [if_neg (not_le.mpr h)]
  simpa using oxygenLoop_closed (occ * BURN_SCALE) h 52 INITIAL_OXYGEN 0 rfl

theorem oxygenSim_point_nine : oxygenSim (9 / 10) = 3 := by
  have hb : (0 : ℚ) < (9 / 10) * BURN_SCALE := by norm_num [BURN_SCALE]
  rw [oxygenSim_closed _ hb]
  have hq : INITIAL_OXYGEN / ((9 / 10 : ℚ) * BURN_SCALE) = 80 / 27 := by
    norm_num [INITIAL_OXYGEN, BURN_SCALE]
  rw [hq]
  have hc : ⌈(80 / 27 : ℚ)⌉₊ = 3 := by
    rw [Nat.ceil_eq_iff (by norm_num)]
    constructor <;> norm_num
  rw [hc]
  omega

/- ===================== Claim theorems ================================== -/

/-- Claim C1: for every pair of alert levels, `final_alert_level` is the
maximum of `icu_alert_level` and `oxygen_alert_level` under the total
order Normal < Watch < Critical (witnessed by `severityRank`), and the
merge — a pure function of exactly those two inputs — is commutative and
idempotent; checked over all 9 input combinations. -/
theorem final_alert_is_max :
    ∀ a b : AlertLevel,
      severityRank (finalAlert a b) = max (severityRank a) (severityRank b)
      ∧ (finalAlert a b = if severityRank a ≤ severityRank b then b else a)
      ∧ finalAlert a b = finalAlert b a
      ∧ finalAlert a a = a := by
  decide

/-- Claim C2: the oxygen depletion simulator with
`burn_rate = occupancy * BURN_SCALE` returns 52 weeks when
`burn_rate ≤ 0`; otherwise it counts discrete weekly decrements from
`INITIAL_OXYGEN`: before every counted week the remaining oxygen is still
positive, and when the loop stops short of the 52-week cap the remaining
oxygen is ≤ 0.  `oxygen_days_remaining = weeks * 7`, and at
`occupancy = 0.9` (`BURN_SCALE = 15`, `INITIAL_OXYGEN = 40`) the result
is 3 weeks. -/
theorem oxygen_sim_spec (occ : ℚ) :
    (occ * BURN_SCALE ≤ 0 → oxygenSim occ = 52)
    ∧ oxygenDaysRemaining occ = oxygenSim occ * 7
    ∧ (0 < occ * BURN_SCALE → ∀ k : ℕ, k < oxygenSim occ →
        0 < INITIAL_OXYGEN - (k : ℚ) * (occ * BURN_SCALE))
    ∧ (0 < occ * BURN_SCALE → oxygenSim occ < 52 →
        INITIAL_OXYGEN - (oxygenSim occ : ℚ) * (occ * BURN_SCALE) ≤ 0)
    ∧ oxygenSim (9 / 10) = 3 := by
  refine ⟨?_, rfl, ?_, ?_, oxygenSim_point_nine⟩
  · intro h
    unfold oxygenSim
    rw [if_pos h]
  · intro hb k hk
    rw [oxygenSim_closed occ hb] at hk
    have hk2 : k < ⌈INITIAL_OXYGEN / (occ * BURN_SCALE)⌉₊ :=
      lt_of_lt_of_le hk (min_le_right _ _)
    have hk3 : (k : ℚ) < INITIAL_OXYGEN / (occ * BURN_SCALE) :=
      Nat.lt_ceil.mp hk2
    have hk4 : (k : ℚ) * (occ * BURN_SCALE) < INITIAL_OXYGEN :=
      (lt_div_iff₀ hb).mp hk3
    linarith
  · intro hb h52
    rw [oxygenSim_closed occ hb] at h52 ⊢
    have hc : ⌈INITIAL_OXYGEN / (occ * BURN_SCALE)⌉₊ < 52 := by omega
    have hm : min 52 ⌈INITIAL_OXYGEN / (occ * BURN_SCALE)⌉₊
        = ⌈INITIAL_OXYGEN / (occ * BURN_SCALE)⌉₊ := by omega
    rw [hm]
    have hle : INITIAL_OXYGEN / (occ * BURN_SCALE)
        ≤ (⌈INITIAL_OXYGEN / (occ * BURN_SCALE)⌉₊ : ℚ) := Nat.le_ceil _
    have := (div_le_iff₀ hb).mp hle
    linarith

/-- Claim C2 witness: at `occupancy = 0` the burn rate is 0 and the
simulator returns the 52-week cap, and at `occupancy = 0.9` it returns
3 weeks. -/
theorem oxygen_sim_spec_witness : oxygenSim 0 = 52 ∧ oxygenSim (9 / 10) = 3 :=
  ⟨(oxygen_sim_spec 0).1 (by norm_num [BURN_SCALE]),
   (oxygen_sim_spec 0).2.2.2.2⟩

/-- Claim C10: when `burn_rate = occupancy * BURN_SCALE > 0` the oxygen
burn-down loop terminates with the closed-form result
`weeks = min 52 ⌈INITIAL_OXYGEN / burn_rate⌉`; hence `weeks ∈ [1, 52]`
and `weeks` is non-increasing in the occupancy. -/
theorem oxygen_sim_closed_form (occ : ℚ) (h : 0 < occ * BURN_SCALE) :
    oxygenSim occ = min 52 ⌈INITIAL_OXYGEN / (occ * BURN_SCALE)⌉₊
    ∧ 1 ≤ oxygenSim occ ∧ oxygenSim occ ≤ 52
    ∧ ∀ occ2 : ℚ, occ ≤ occ2 → oxygenSim occ2 ≤ oxygenSim occ := by
  have hcf := oxygenSim_closed occ h
  refine ⟨hcf, ?_, ?_, ?_⟩
  · rw [hcf]
    have hpos : 0 < ⌈INITIAL_OXYGEN / (occ * BURN_SCALE)⌉₊ :=
      Nat.ceil_pos.mpr (div_pos (by norm_num [INITIAL_OXYGEN]) h)
    omega
  · rw [hcf]; omega
  · intro occ2 h2
    have hbb : occ * BURN_SCALE ≤ occ2 * BURN_SCALE :=
      mul_le_mul_of_nonneg_right h2 (by norm_num [BURN_SCALE])
    have hb2 : 0 < occ2 * BURN_SCALE := lt_of_lt_of_le h hbb
    rw [hcf, oxygenSim_closed occ2 hb2]
    have hdiv : INITIAL_OXYGEN / (occ2 * BURN_SCALE)
        ≤ INITIAL_OXYGEN / (occ * BURN_SCALE) := by
      gcongr
      norm_num [INITIAL_OXYGEN]
    have hceil := Nat.ceil_le_ceil hdiv
    omega

/-- Claim C10 witness: at `occupancy = 0.9` the burn rate is positive, the
closed form gives 3 weeks within [1, 52], and raising occupancy to 1 does
not increase the remaining weeks. -/
theorem oxygen_sim_closed_form_witness :
    1 ≤ oxygenSim (9 / 10) ∧ oxygenSim (9 / 10) ≤ 52
    ∧ oxygenSim 1 ≤ oxygenSim (9 / 10) := by
  have h : (0 : ℚ) < (9 / 10) * BURN_SCALE := by norm_num [BURN_SCALE]
  obtain ⟨-, h1, h52, hmono⟩ := oxygen_sim_closed_form (9 / 10) h
  exact ⟨h1, h52, hmono 1 (by norm_num)⟩

/-- Claim C3: the recursive forecaster's state transition is the pure
function `stepState` of the previous state and the newly emitted
prediction, for every initial state, model, multiplier and step: after
any iteration the state equals `stepState` of the previous state and that
step's prediction, `lag_1` holds the just-emitted prediction (so the
state read at step `k > 1` has `lag_1` equal to step `k-1`'s emitted
prediction, never a true future observation), the lag chain is shifted
`lag_4←lag_3←lag_2←lag_1←prediction`, `roll_mean/std/min/max` are
recomputed over the new 4-lag window, `delta_1 = lag_1 - lag_2`, and
`pct_change_1 = (lag_1 - lag_2)/lag_2` with value 0 when `lag_2 = 0`. -/
theorem forecast_transition_autoregressive
    (pstd : ℚ → ℚ → ℚ → ℚ → ℚ) (model : ForecastState → ℚ) (mult : ℚ)
    (s0 : ForecastState) (j : ℕ) :
    stateAfter pstd model mult s0 (j + 1)
        = stepState pstd (stateAfter pstd model mult s0 j)
            (predAtStep pstd model mult s0 (j + 1))
    ∧ (stateAfter pstd model mult s0 (j + 1)).lag_1
        = predAtStep pstd model mult s0 (j + 1)
    ∧ (stateAfter pstd model mult s0 (j + 1)).lag_2
        = (stateAfter pstd model mult s0 j).lag_1
    ∧ (stateAfter pstd model mult s0 (j + 1)).lag_3
        = (stateAfter pstd model mult s0 j).lag_2
    ∧ (stateAfter pstd model mult s0 (j + 1)).lag_4
        = (stateAfter pstd model mult s0 j).lag_3
    ∧ (stateAfter pstd model mult s0 (j + 1)).roll_mean_4
        = ((stateAfter pstd model mult s0 (j + 1)).lag_1
            + (stateAfter pstd model mult s0 (j + 1)).lag_2
            + (stateAfter pstd model mult s0 (j + 1)).lag_3
            + (stateAfter pstd model mult s0 (j + 1)).lag_4) / 4
    ∧ (stateAfter pstd model mult s0 (j + 1)).roll_std_4
        = pstd (stateAfter pstd model mult s0 (j + 1)).lag_1
            (stateAfter pstd model mult s0 (j + 1)).lag_2
            (stateAfter pstd model mult s0 (j + 1)).lag_3
            (stateAfter pstd model mult s0 (j + 1)).lag_4
    ∧ (stateAfter pstd model mult s0 (j + 1)).roll_min_4
        = min (stateAfter pstd model mult s0 (j + 1)).lag_1
            (min (stateAfter pstd model mult s0 (j + 1)).lag_2
              (min (stateAfter pstd model mult s0 (j + 1)).lag_3
                (stateAfter pstd model mult s0 (j + 1)).lag_4))
    ∧ (stateAfter pstd model mult s0 (j + 1)).roll_max_4
        = max (stateAfter pstd model mult s0 (j + 1)).lag_1
            (max (stateAfter pstd model mult s0 (j + 1)).lag_2
              (max (stateAfter pstd model mult s0 (j + 1)).lag_3
                (stateAfter pstd model mult s0 (j + 1)).lag_4))
    ∧ (stateAfter pstd model mult s0 (j + 1)).delta_1
        = (stateAfter pstd model mult s0 (j + 1)).lag_1
            - (stateAfter pstd model mult s0 (j + 1)).lag_2
    ∧ (stateAfter pstd model mult s0 (j + 1)).pct_change_1
        = (if (stateAfter pstd model mult s0 (j + 1)).lag_2 = 0 then 0
           else ((stateAfter pstd model mult s0 (j + 1)).lag_1
              - (stateAfter pstd model mult s0 (j + 1)).lag_2)
              / (stateAfter pstd model mult s0 (j + 1)).lag_2) := by
  refine ⟨rfl, rfl, rfl, rfl, rfl, rfl, rfl, rfl, rfl, rfl, ?_⟩
  show (stepState pstd (stateAfter pstd model mult s0 j)
      (stepPred model mult (stateAfter pstd model mult s0 j))).pct_change_1
    = _
  by_cases h : (stateAfter pstd model mult s0 j).lag_1 = 0 <;>
    simp [stateAfter, stepState, h]

/-- Claim C7: every prediction emitted by the recursive forecaster lies in
[0, 1.2], for every model, scenario multiplier, initial state and step
count: the model output is scaled and then clamped to [0, 1.2], so a
diverging prediction is recovered by the clamp, never propagated. -/
theorem forecast_preds_clamped
    (pstd : ℚ → ℚ → ℚ → ℚ → ℚ) (model : ForecastState → ℚ) (mult : ℚ)
    (s0 : ForecastState) (steps : ℕ) (p : ℚ)
    (hp : p ∈ recursiveForecast pstd model mult s0 steps) :
    0 ≤ p ∧ p ≤ 1.2 := by
  rw [recursiveForecast, List.mem_map] at hp
  obtain ⟨i, -, hpe⟩ := hp
  subst hpe
  unfold stepPred clampPred
  constructor
  · exact le_max_left 0 _
  · exact max_le (by norm_num) (min_le_right _ _)

/-- Claim C7 witness: a model that always predicts 2 with multiplier 1
emits the clamped value 1.2 at step 1, which lies in [0, 1.2]. -/
theorem forecast_preds_clamped_witness :
    (6 / 5 : ℚ) ∈ recursiveForecast pstdZero modelTwo 1 s0Zero 1
    ∧ 0 ≤ (6 / 5 : ℚ) ∧ (6 / 5 : ℚ) ≤ 1.2 := by
  have hmem : (6 / 5 : ℚ) ∈ recursiveForecast pstdZero modelTwo 1 s0Zero 1 := by
    unfold recursiveForecast
    norm_num [List.range_succ, stepPred, clampPred, modelTwo, stateAfter,
      min_def, max_def]
  exact ⟨hmem, forecast_preds_clamped pstdZero modelTwo 1 s0Zero 1 _ hmem⟩

/-- Claim C4: the stress score is a pure function of its row equal to
`0.5*icu_util*100 + 0.3*oxygen_risk_proxy*100 +
0.2*clip(icu_delta_1w/0.10, 0, 1)*100` with
`oxygen_risk_proxy = clip(0.6*icu_util + 0.2*inpatient_util +
0.2*covid_ratio, 0, 1)` and `icu_delta_1w = clip(icu_util -
icu_util_lag1, -0.3, 0.3)`, the three ratio inputs clamped to [0, 1]
first; at `icu = 0.8`, `inpatient = 0.5`, `covid = 0.3` and
`icu_util_lag1 = 0.75` (so `icu_delta_1w = 0.05`) it equals 69.2. -/
theorem stress_score_formula (icu inp covid l : ℚ) :
    stress_score icu inp covid (some l)
      = 0.5 * clamp01 icu * 100
        + 0.3 * clamp01 (0.6 * clamp01 icu + 0.2 * clamp01 inp
            + 0.2 * clamp01 covid) * 100
        + 0.2 * clamp01 (clipTo (-0.3) 0.3 (clamp01 icu - l) / 0.10) * 100
    ∧ clipTo (-0.3) 0.3 (clamp01 (0.8) - 0.75) = 0.05
    ∧ stress_score 0.8 0.5 0.3 (some 0.75) = 69.2 := by
  constructor
  · rfl
  constructor
  · norm_num [clipTo, clamp01, min_def, max_def]
  · norm_num [stress_score, clipTo, clamp01, min_def, max_def]

/-- Claim C5: every row emitted by the feature builder for a date-sorted
per-hospital series sits at a position with at least 4 prior
observations, and its `roll_mean_4` (and `roll_std/min/max_4` and
`lag_1`) are computed over exactly the 4 observations strictly preceding
that position — the observation at the row's own position is never in the
window; rows lacking `lag_1` or `roll_mean_4` are dropped, not imputed. -/
theorem features_strict_lookback
    (pstd : ℚ → ℚ → ℚ → ℚ → ℚ) (obs : List ℚ) (r : RawFeatureRow)
    (hr : r ∈ build_features pstd obs) :
    4 ≤ r.idx ∧ r.idx < obs.length
    ∧ ∃ a b c d,
        obs[r.idx - 4]? = some a ∧ obs[r.idx - 3]? = some b
        ∧ obs[r.idx - 2]? = some c ∧ obs[r.idx - 1]? = some d
        ∧ r.roll_mean_4 = some ((a + b + c + d) / 4)
        ∧ r.roll_std_4 = some (pstd a b c d)
        ∧ r.roll_min_4 = some (min a (min b (min c d)))
        ∧ r.roll_max_4 = some (max a (max b (max c d)))
        ∧ r.lag_1 = some d
        ∧ r.idx - 4 < r.idx ∧ r.idx - 3 < r.idx
        ∧ r.idx - 2 < r.idx ∧ r.idx - 1 < r.idx := by
  unfold build_features at hr
  rw [List.mem_filter] at hr
  obtain ⟨hmem, hp⟩ := hr
  rw [List.mem_map] at hmem
  obtain ⟨i, hi, hre⟩ := hmem
  rw [List.mem_range] at hi
  subst hre
  simp only [rawFeatureRow, Bool.and_eq_true, Option.isSome_iff_exists] at hp
  obtain ⟨-, hroll⟩ := hp
  by_cases h4 : 4 ≤ i
  · have h1 : i - 4 < obs.length := by omega
    have h2 : i - 3 < obs.length := by omega
    have h3 : i - 2 < obs.length := by omega
    have h5 : i - 1 < obs.length := by omega
    have e1 := List.getElem?_eq_getElem h1
    have e2 := List.getElem?_eq_getElem h2
    have e3 := List.getElem?_eq_getElem h3
    have e4 := List.getElem?_eq_getElem h5
    refine ⟨h4, hi, obs[i - 4], obs[i - 3], obs[i - 2], obs[i - 1],
      e1, e2, e3, e4, ?_, ?_, ?_, ?_, ?_,
      (show i - 4 < i by omega), (show i - 3 < i by omega),
      (show i - 2 < i by omega), (show i - 1 < i by omega)⟩ <;>
      simp [rawFeatureRow, shiftRoll4, lagAt, h4, show 1 ≤ i by omega,
        e1, e2, e3, e4]
  · exfalso
    obtain ⟨x, hx⟩ := hroll
    simp [shiftRoll4, h4] at hx

/-- Claim C5 witness: on a concrete five-observation series the feature
builder emits the row at position 4, which has four prior observations. -/
theorem features_strict_lookback_witness :
    4 ≤ (rawFeatureRow pstdZero obsFive 4 0).idx
    ∧ (rawFeatureRow pstdZero obsFive 4 0).idx < obsFive.length := by
  have hmem : rawFeatureRow pstdZero obsFive 4 0
      ∈ build_features pstdZero obsFive := by
    simp [build_features, List.range_succ, List.mem_filter, rawFeatureRow,
      lagAt, shiftRoll4, obsFive]
  exact ⟨(features_strict_lookback pstdZero obsFive _ hmem).1,
    (features_strict_lookback pstdZero obsFive _ hmem).2.1⟩

/-- Claim C6 counterexample: the feature builder attaches
`created_at = datetime.utcnow()` to every emitted row, so two runs on the
identical observation series (here a concrete five-value series, run at
two different wall-clock instants) do not produce byte-identical output:
the `created_at` column differs. -/
theorem feature_rerun_counterexample :
    build_features_run pstdZero obsFive 0
      ≠ build_features_run pstdZero obsFive 1 := by
  intro h
  have hlen : build_features_run pstdZero obsFive 0
      = (build_features pstdZero obsFive).map (fun r => (r, 0)) := rfl
  have hne : (build_features pstdZero obsFive).length = 1 := by
    simp [build_features, List.range_succ, rawFeatureRow, lagAt, shiftRoll4,
      obsFive]
  rcases hmatch : build_features pstdZero obsFive with - | ⟨r, rest⟩
  · rw [hmatch] at hne
    simp at hne
  · rw [build_features_run, build_features_run, hmatch] at h
    simp at h

/-- Claim C6 amended: re-running the feature builder on an unchanged
observation series reproduces every feature column byte-identically —
the emitted rows agree in every column except the `created_at` run
timestamp, for every series and every pair of run instants. -/
theorem feature_rerun_data_identical
    (pstd : ℚ → ℚ → ℚ → ℚ → ℚ) (obs : List ℚ) (t1 t2 : ℕ) :
    (build_features_run pstd obs t1).map Prod.fst
      = (build_features_run pstd obs t2).map Prod.fst := by
  simp [build_features_run]

/-- Claim C8 counterexample: with 2 distinct hospitals (fewer than 5) the
overload classifier's holdout path raises, but the occupancy regressor's
holdout path raises nothing — it has no minimum-hospital guard, so the
claim that both paths raise a fatal configuration error is false. -/
theorem holdout_guard_counterexample :
    2 < 5 ∧ forecastHoldoutGuard 2 = none
    ∧ overloadHoldoutGuard 2 ≠ none := by
  refine ⟨by norm_num, by decide, by decide⟩

/-- Claim C8 amended: the overload classifier's holdout path raises
exactly when there are fewer than 5 distinct hospitals; the occupancy
regressor's holdout path has no such guard and fails only when the 80/20
split itself would leave an empty train or test set, i.e. with fewer
than 2 hospitals — with 2–4 hospitals it silently proceeds. -/
theorem holdout_guard_characterization (n : ℕ) :
    ((overloadHoldoutGuard n).isSome ↔ n < 5)
    ∧ ((forecastHoldoutGuard n).isSome ↔ n < 2) := by
  constructor
  · unfold overloadHoldoutGuard
    split <;> simp_all
  · show (if (n + 4) / 5 = 0 ∨ n - (n + 4) / 5 = 0 then
        some "train_test_split: resulting train set will be empty"
      else none).isSome = true ↔ n < 2
    split
    · rename_i h
      simp only [Option.isSome_some, true_iff]
      omega
    · rename_i h
      simp only [Option.isSome_none, Bool.false_eq_true, false_iff, not_lt]
      omega

/-- Claim C9: evaluation of the overload-prediction inference loop at a
hospital whose latest stress-feature row is entirely missing: the code
does not skip the hospital — it zero-fills the missing features
(`fillna(0.0)`) and emits a prediction row anyway, for every model.  This
contradicts the code's own comment ("Need features present; if missing,
skip") and the spec's per-hospital skip; the emitted row is the model's
output on the all-zero feature vector. -/
theorem overload_missing_features_not_skipped (model : List ℚ → ℚ) :
    (overloadPredictionRows model [List.replicate 9 (none : Option ℚ)]).length
      = 1
    ∧ overloadPredictionRows model [List.replicate 9 (none : Option ℚ)]
      = [(model (List.replicate 9 0),
          decide (PROB_THRESHOLD ≤ model (List.replicate 9 0)))] := by
  constructor
  · rfl
  · simp [overloadPredictionRows, overloadInfer, List.replicate]
